import Mathlib

/-
Shallow embedding of drfpasswordless/utils.py (callback-token lifecycle,
alias verification and delivery dispatch of the passwordless authentication
module), together with theorems settling the specification claims.

Modelling conventions:
- The Django CallbackToken table is a list of records (DB); the primary key is
  the id field.  Model.objects.get with filters returns the record when exactly
  one row matches and fails otherwise (DoesNotExist / MultipleObjectsReturned,
  both of which the source catches and converts to a failure result).
- Stateful operations take the DB and return the possibly-updated DB.
- Randomness (random.choice, numeric token generation) is modelled by a natural
  number draw r; random.choice pool corresponds to indexing pool at r mod length.
- Python falsiness of a string is equality with ""; a missing attribute or a
  None value is Option.none.  str(None) is the string "None".
- An exception that the source does not catch is Except.error; results the
  source returns normally are Except.ok.
- The current time is an integer parameter now; token ages are integers.
-/

namespace DrfPasswordless

/-- Token type constants of drfpasswordless.models.CallbackToken. -/
def TOKEN_TYPE_AUTH : String := "AUTH"

def TOKEN_TYPE_VERIFY : String := "VERIFY"

/-- Valid alias types, utils.py line 19. -/
def VALID_ALIAS_TYPES : List String := ["EMAIL", "MOBILE", "CALL"]

/-- Record of the CallbackToken table. -/
structure CallbackToken where
  id : Nat
  key : String
  userId : Nat
  to_alias : String
  to_alias_type : String
  type : String
  is_active : Bool
  created_at : Int
deriving DecidableEq, Repr

/-- The token store: the rows of the CallbackToken table. -/
abbrev DB := List CallbackToken

/-- A user record.  The contact fields are addressed through configured field
name strings (getattr); the model exposes the attributes named "email",
"mobile", "email_verified" and "mobile_verified". -/
structure PUser where
  id : Nat
  email : Option String
  mobile : Option String
  email_verified : Bool
  mobile_verified : Bool
deriving DecidableEq, Repr

/-- The api_settings facade.  An Option field is none when the attribute is
absent (hasattr false / getattr raising AttributeError). -/
structure Settings where
  PASSWORDLESS_DEMO_USERS : List (String × String)
  PASSWORDLESS_TOKEN_EXPIRE_TIME : Option Int
  PASSWORDLESS_VIRTUAL_NUMBER_POOL : List String
  PASSWORDLESS_TEST_SUPPRESSION : Bool
  PASSWORDLESS_MOBILE_NOREPLY_NUMBER : Option String
  PASSWORDLESS_USER_EMAIL_FIELD_NAME : Option String
  PASSWORDLESS_USER_MOBILE_FIELD_NAME : Option String
  PASSWORDLESS_USER_CALL_FIELD_NAME : Option String
  PASSWORDLESS_USER_EMAIL_VERIFIED_FIELD_NAME : Option String
  PASSWORDLESS_USER_MOBILE_VERIFIED_FIELD_NAME : Option String
  PASSWORDLESS_USER_CALL_VERIFIED_FIELD_NAME : Option String
deriving Repr

/-- Equality of Except values is decidable; used to evaluate results of the
fallible operations on concrete inputs. -/
instance instDecEqExcept {e a : Type} [DecidableEq e] [DecidableEq a] :
    DecidableEq (Except e a)
  | .ok x, .ok y =>
    if h : x = y then .isTrue (by rw [h])
    else .isFalse (by intro c; injection c; contradiction)
  | .error x, .error y =>
    if h : x = y then .isTrue (by rw [h])
    else .isFalse (by intro c; injection c; contradiction)
  | .ok _, .error _ => .isFalse (by intro c; cases c)
  | .error _, .ok _ => .isFalse (by intro c; cases c)

/-- Python str.upper on one character (the alias type strings are ASCII). -/
def asciiUpperChar (c : Char) : Char :=
  if 97 ≤ c.toNat ∧ c.toNat ≤ 122 then Char.ofNat (c.toNat - 32) else c

/-- Python str.lower on one character (the alias type strings are ASCII). -/
def asciiLowerChar (c : Char) : Char :=
  if 65 ≤ c.toNat ∧ c.toNat ≤ 90 then Char.ofNat (c.toNat + 32) else c

/-- Python str.upper restricted to ASCII strings. -/
def asciiUpper (s : String) : String :=
  String.mk (s.data.map asciiUpperChar)

/-- Python str.lower restricted to ASCII strings. -/
def asciiLower (s : String) : String :=
  String.mk (s.data.map asciiLowerChar)

/-- Python str applied to an optional string: str(None) is "None". -/
def strOfPyOpt : Option String → String
  | none => "None"
  | some s => s

/-- getattr(user, field, None) over the user model attributes. -/
def userAttr (u : PUser) (field : String) : Option String :=
  if field = "email" then u.email
  else if field = "mobile" then u.mobile
  else none

/-- setattr(user, field, True) for the verified flags; setattr on a name the
model does not declare creates an attribute no later read observes, so it is
the identity here. -/
def setVerifiedAttr (u : PUser) (field : String) : PUser :=
  if field = "email_verified" then { u with email_verified := true }
  else if field = "mobile_verified" then { u with mobile_verified := true }
  else u

/-- getattr(api_settings, "PASSWORDLESS_USER_" ++ aliasTypeU ++ "_FIELD_NAME")
without a default: none models AttributeError. -/
def fieldNameSetting (s : Settings) (aliasTypeU : String) : Option String :=
  if aliasTypeU = "EMAIL" then s.PASSWORDLESS_USER_EMAIL_FIELD_NAME
  else if aliasTypeU = "MOBILE" then s.PASSWORDLESS_USER_MOBILE_FIELD_NAME
  else if aliasTypeU = "CALL" then s.PASSWORDLESS_USER_CALL_FIELD_NAME
  else none

/-- getattr(api_settings, "PASSWORDLESS_USER_" ++ aliasTypeU ++ "_VERIFIED_FIELD_NAME"). -/
def verifiedFieldNameSetting (s : Settings) (aliasTypeU : String) : Option String :=
  if aliasTypeU = "EMAIL" then s.PASSWORDLESS_USER_EMAIL_VERIFIED_FIELD_NAME
  else if aliasTypeU = "MOBILE" then s.PASSWORDLESS_USER_MOBILE_VERIFIED_FIELD_NAME
  else if aliasTypeU = "CALL" then s.PASSWORDLESS_USER_CALL_VERIFIED_FIELD_NAME
  else none

/-- Membership test alias in api_settings.PASSWORDLESS_DEMO_USERS (dict key
membership). -/
def isDemoAlias (s : Settings) (a : String) : Bool :=
  (s.PASSWORDLESS_DEMO_USERS.lookup a).isSome

/-- Model.objects.get(...): the unique row satisfying p, if exactly one row
does; otherwise the lookup fails (DoesNotExist or MultipleObjectsReturned). -/
def getUnique (p : CallbackToken → Bool) (db : DB) : Option CallbackToken :=
  match db.filter p with
  | [t] => some t
  | _ => none

/-- A token with is_active cleared: the token.is_active = False mutation. -/
def deactivated (t : CallbackToken) : CallbackToken :=
  { t with is_active := false }

/-- token.is_active = False; token.save(): clear is_active on the row with the
given primary key. -/
def deactivate (i : Nat) (db : DB) : DB :=
  db.map (fun t => if t.id = i then deactivated t else t)

/-- Filter of the get call in authenticate_by_token, utils.py lines 31-35:
key match, active, AUTH type. -/
def authMatch (key : String) (t : CallbackToken) : Bool :=
  t.key == key && t.is_active && t.type == TOKEN_TYPE_AUTH

/-- authenticate_by_token, utils.py lines 21-53.  The result is the owning
user id (select_related user) or none; every exception branch returns None. -/
def authenticate_by_token (callback_token : String) (db : DB) : Option Nat × DB :=
  if callback_token = "" then (none, db)
  else
    match getUnique (authMatch callback_token) db with
    | some t => (some t.userId, deactivate t.id db)
    | none => (none, db)

/-- Filter of the get call in validate_token_age, utils.py lines 145-148:
key match and active (no type restriction). -/
def validateMatch (key : String) (t : CallbackToken) : Bool :=
  t.key == key && t.is_active

/-- validate_token_age, utils.py lines 135-174.  Demo aliases validate true
unconditionally; otherwise the expiry setting must be present and positive and
the age now - created_at must not exceed it; an expired token is deactivated
and false is returned; every failure path returns false with the DB
unchanged. -/
def validate_token_age (callback_token : String) (s : Settings) (now : Int)
    (db : DB) : Bool × DB :=
  if callback_token = "" then (false, db)
  else
    match getUnique (validateMatch callback_token) db with
    | none => (false, db)
    | some t =>
      if isDemoAlias s t.to_alias then (true, db)
      else
        match s.PASSWORDLESS_TOKEN_EXPIRE_TIME with
        | none => (false, db)
        | some exp =>
          if exp ≤ 0 then (false, db)
          else if now - t.created_at ≤ exp then (true, db)
          else (false, deactivate t.id db)

/-- Modelled from the spec: drfpasswordless.models.generate_numeric_token is
imported by utils.py but its body is not under src.  The spec describes the
Token Generator as producing a fixed-length random decimal string; the random
draw is the parameter r and the length is six digits, zero padded. -/
def generate_numeric_token (r : Nat) : String :=
  let s := toString (r % 1000000)
  String.mk (List.replicate (6 - s.length) (Char.ofNat 48)) ++ s

/-- random.choice over a list, with the random draw r: the element at index
r mod length, none on an empty list. -/
def random_choice (l : List String) (r : Nat) : Option String :=
  l.get? (r % l.length)

/-- select_virtual_number, utils.py lines 55-65.  Raises (none) when the pool
is empty, otherwise returns a random pool element.  The filtering step of
lines 61-65 follows the unconditional return of line 59 and never runs, so the
result does not depend on the token store; the db argument is kept to state
exactly that. -/
def select_virtual_number (s : Settings) (_db : DB) (r : Nat) : Option String :=
  let pool := s.PASSWORDLESS_VIRTUAL_NUMBER_POOL
  if pool.isEmpty then none
  else random_choice pool r

/-- Modelled from the spec: the dead filtering step of utils.py lines 61-65 as
it would behave if control reached it, excluding numbers used by live AUTH
mobile tokens.  Stated only for comparison with select_virtual_number. -/
def select_virtual_number_filtered (s : Settings) (db : DB) (r : Nat) :
    Option String :=
  let pool := s.PASSWORDLESS_VIRTUAL_NUMBER_POOL
  if pool.isEmpty then none
  else
    let used := (db.filter (fun t =>
      t.is_active && t.type == TOKEN_TYPE_AUTH && t.to_alias_type == "mobile")).map
      (fun t => t.key)
    let available := pool.filter (fun n => ¬ used.contains n)
    if available.isEmpty then none
    else random_choice available r

/-- Fresh primary key for a row created by Model.objects.create. -/
def freshId (db : DB) : Nat :=
  db.foldr (fun t m => max (t.id + 1) m) 0

/-- Row built by CallbackToken.objects.create: is_active defaults to true and
created_at to the current time. -/
def mkToken (i : Nat) (uid : Nat) (key toAlias toAliasType tokenType : String)
    (now : Int) : CallbackToken :=
  { id := i, key := key, userId := uid, to_alias := toAlias,
    to_alias_type := toAliasType, type := tokenType, is_active := true,
    created_at := now }

/-- Filter of the demo reuse lookup in create_callback_token_for_user,
utils.py line 103: same user, active, same alias category; the requested token
type is not part of the filter. -/
def demoReuseMatch (uid : Nat) (cat : String) (t : CallbackToken) : Bool :=
  t.userId == uid && t.is_active && t.to_alias_type == cat

/-- Body of the try block of create_callback_token_for_user, utils.py lines
94-126: resolve the alias via str(getattr(user, field, None)), fail on an
empty alias, take the demo branch when the alias is a demo registry key
(reusing any active token of the same user and category, else creating one
with the registry key), otherwise create a token with the prepared key. -/
def createTokenBody (u : PUser) (toAliasField toAliasType key tokenType : String)
    (s : Settings) (db : DB) (now : Int) :
    Except String (Option CallbackToken) × DB :=
  let a := strOfPyOpt (userAttr u toAliasField)
  if a = "" then (.ok none, db)
  else if isDemoAlias s a then
    match db.find? (demoReuseMatch u.id toAliasType) with
    | some t => (.ok (some t), db)
    | none =>
      match s.PASSWORDLESS_DEMO_USERS.lookup a with
      | none => (.ok none, db)
      | some tokenKey =>
        if tokenKey = "" then (.ok none, db)
        else
          let t := mkToken (freshId db) u.id tokenKey a toAliasType tokenType now
          (.ok (some t), db ++ [t])
  else
    let t := mkToken (freshId db) u.id key a toAliasType tokenType now
    (.ok (some t), db ++ [t])

/-- create_callback_token_for_user, utils.py lines 67-133.  The attribute
reads of the field-name settings on lines 78 and 90 happen before the try
block, so a missing setting raises AttributeError out of the function
(Except.error) with the DB unchanged; a ValueError from select_virtual_number
is caught on lines 82-84 and becomes None.  keyR draws the numeric token and
vnR the virtual number. -/
def create_callback_token_for_user (user : Option PUser)
    (alias_type token_type : String) (s : Settings) (db : DB) (now : Int)
    (keyR vnR : Nat) : Except String (Option CallbackToken) × DB :=
  match user with
  | none => (.ok none, db)
  | some u =>
    if alias_type = "" then (.ok none, db)
    else if token_type = "" then (.ok none, db)
    else if asciiLower alias_type = "call" then
      match s.PASSWORDLESS_USER_MOBILE_FIELD_NAME with
      | none => (.error "AttributeError", db)
      | some fld =>
        match select_virtual_number s db vnR with
        | none => (.ok none, db)
        | some key => createTokenBody u fld "mobile" key token_type s db now
    else
      if VALID_ALIAS_TYPES.contains (asciiUpper alias_type) then
        match fieldNameSetting s (asciiUpper alias_type) with
        | none => (.error "AttributeError", db)
        | some fld =>
          createTokenBody u fld (asciiLower alias_type)
            (generate_numeric_token keyR) token_type s db now
      else (.ok none, db)

/-- verify_user_alias, utils.py lines 176-210.  Returns the success flag and
the possibly-updated user.  Fails on a missing user or token, an unrecognized
alias type, missing field-name configuration (AttributeError), an empty
resolved user alias, or a mismatch between the token alias snapshot and the
current user alias; on success the verified flag for the category is set and
the user saved. -/
def verify_user_alias (user : Option PUser) (token : Option CallbackToken)
    (s : Settings) : Bool × Option PUser :=
  match user, token with
  | some u, some t =>
    if VALID_ALIAS_TYPES.contains (asciiUpper t.to_alias_type) then
      match fieldNameSetting s (asciiUpper t.to_alias_type),
            verifiedFieldNameSetting s (asciiUpper t.to_alias_type) with
      | some aliasField, some verifiedField =>
        let userAlias := strOfPyOpt (userAttr u aliasField)
        if userAlias = "" then (false, some u)
        else if t.to_alias ≠ userAlias then (false, some u)
        else (true, some (setVerifiedAttr u verifiedField))
      | _, _ => (false, some u)
    else (false, some u)
  | _, _ => (false, user)

/-- send_sms_with_callback_token, utils.py lines 274-327.  twilioOk abstracts
a successful twilio import and client construction, transportOk a successful
messages.create call (a transport exception is caught and becomes False).
In the suppressed branch the source first checks the noreply-number setting,
then logs an f-string that evaluates user.id: with user None that read raises
AttributeError before the return (Except.error). -/
def send_sms_with_callback_token (user : Option PUser)
    (mobile_token : Option CallbackToken) (s : Settings)
    (twilioOk transportOk : Bool) : Except String Bool :=
  if s.PASSWORDLESS_TEST_SUPPRESSION then
    match s.PASSWORDLESS_MOBILE_NOREPLY_NUMBER with
    | none => .ok false
    | some n =>
      if n = "" then .ok false
      else
        match user with
        | none => .error "AttributeError"
        | some _ => .ok true
  else
    match s.PASSWORDLESS_MOBILE_NOREPLY_NUMBER with
    | none => .ok false
    | some n =>
      if n = "" then .ok false
      else
        match user with
        | none => .ok false
        | some u =>
          match mobile_token with
          | none => .ok false
          | some tok =>
            if tok.key = "" then .ok false
            else if twilioOk then
              match userAttr u
                  (s.PASSWORDLESS_USER_MOBILE_FIELD_NAME.getD "mobile") with
              | none => .ok false
              | some num =>
                if num = "" then .ok false
                else .ok transportOk
            else .ok false

/-- send_call_with_callback_token, utils.py lines 329-375.  The suppressed
branch (lines 334-336) has no configuration check, but its log line is an
f-string that evaluates user.id before returning: with user None that read
raises AttributeError out of the function (Except.error); with a present user
it returns True unconditionally. -/
def send_call_with_callback_token (user : Option PUser)
    (mobile_token : Option CallbackToken) (s : Settings)
    (twilioOk transportOk : Bool) : Except String Bool :=
  if s.PASSWORDLESS_TEST_SUPPRESSION then
    match user with
    | none => .error "AttributeError"
    | some _ => .ok true
  else
    match user with
    | none => .ok false
    | some u =>
      match mobile_token with
      | none => .ok false
      | some tok =>
        if tok.key = "" then .ok false
        else if twilioOk then
          match userAttr u
              (s.PASSWORDLESS_USER_MOBILE_FIELD_NAME.getD "mobile") with
          | none => .ok false
          | some num =>
            if num = "" then .ok false
            else .ok transportOk
        else .ok false

/-- Relation between a stored token and its state after an operation: the row
is either untouched or has had is_active cleared; a row is never deleted and
is_active is never set back to true. -/
def weakened (t u : CallbackToken) : Prop :=
  u = t ∨ u = deactivated t

/-- Concrete fixture: an active AUTH email token. -/
def tokA : CallbackToken :=
  { id := 0, key := "484732", userId := 7, to_alias := "a@b.c",
    to_alias_type := "email", type := "AUTH", is_active := true,
    created_at := 0 }

/-- Concrete fixture: the demo token the registry key produces for uDemo. -/
def tokDemo : CallbackToken :=
  { id := 0, key := "111222", userId := 7, to_alias := "demo@x.y",
    to_alias_type := "email", type := "AUTH", is_active := true,
    created_at := 5 }

/-- Concrete fixture: settings with no demo users and suppression off. -/
def sBase : Settings :=
  { PASSWORDLESS_DEMO_USERS := [],
    PASSWORDLESS_TOKEN_EXPIRE_TIME := some 300,
    PASSWORDLESS_VIRTUAL_NUMBER_POOL := ["+15550001", "+15550002"],
    PASSWORDLESS_TEST_SUPPRESSION := false,
    PASSWORDLESS_MOBILE_NOREPLY_NUMBER := some "+19999",
    PASSWORDLESS_USER_EMAIL_FIELD_NAME := some "email",
    PASSWORDLESS_USER_MOBILE_FIELD_NAME := some "mobile",
    PASSWORDLESS_USER_CALL_FIELD_NAME := none,
    PASSWORDLESS_USER_EMAIL_VERIFIED_FIELD_NAME := some "email_verified",
    PASSWORDLESS_USER_MOBILE_VERIFIED_FIELD_NAME := some "mobile_verified",
    PASSWORDLESS_USER_CALL_VERIFIED_FIELD_NAME := none }

/-- Concrete fixture: settings with one demo user and suppression on. -/
def sDemo : Settings :=
  { PASSWORDLESS_DEMO_USERS := [("demo@x.y", "111222")],
    PASSWORDLESS_TOKEN_EXPIRE_TIME := some 300,
    PASSWORDLESS_VIRTUAL_NUMBER_POOL := ["+15550001", "+15550002"],
    PASSWORDLESS_TEST_SUPPRESSION := true,
    PASSWORDLESS_MOBILE_NOREPLY_NUMBER := some "+19999",
    PASSWORDLESS_USER_EMAIL_FIELD_NAME := some "email",
    PASSWORDLESS_USER_MOBILE_FIELD_NAME := some "mobile",
    PASSWORDLESS_USER_CALL_FIELD_NAME := none,
    PASSWORDLESS_USER_EMAIL_VERIFIED_FIELD_NAME := some "email_verified",
    PASSWORDLESS_USER_MOBILE_VERIFIED_FIELD_NAME := some "mobile_verified",
    PASSWORDLESS_USER_CALL_VERIFIED_FIELD_NAME := none }

/-- Concrete fixture: the demo user owning tokDemo. -/
def uDemo : PUser :=
  { id := 7, email := some "demo@x.y", mobile := none,
    email_verified := false, mobile_verified := false }

lemma getUnique_eq_some (p : CallbackToken → Bool) (db : DB) (t : CallbackToken)
    (h : db.filter p = [t]) : getUnique p db = some t := by
  unfold getUnique
  rw [h]

lemma getUnique_eq_none (p : CallbackToken → Bool) (db : DB)
    (h : (db.filter p).length ≠ 1) : getUnique p db = none := by
  unfold getUnique
  rcases hf : db.filter p with _ | ⟨a, rest⟩
  · rfl
  · rcases rest with _ | ⟨b, l⟩
    · exact absurd (by rw [hf]; rfl) h
    · rfl

lemma authMatch_inactive (key : String) :
    ∀ x : CallbackToken, x.is_active = false → authMatch key x = false := by
  intro x hx
  simp [authMatch, hx]

lemma validateMatch_inactive (key : String) :
    ∀ x : CallbackToken, x.is_active = false → validateMatch key x = false := by
  intro x hx
  simp [validateMatch, hx]

lemma filter_deactivate_eq_nil (p : CallbackToken → Bool)
    (hp : ∀ x : CallbackToken, x.is_active = false → p x = false)
    (db : DB) (t : CallbackToken) (h : db.filter p = [t]) :
    (deactivate t.id db).filter p = [] := by
  rw [List.filter_eq_nil_iff]
  intro a ha
  unfold deactivate at ha
  rw [List.mem_map] at ha
  obtain ⟨x, hx, hfa⟩ := ha
  subst hfa
  by_cases hid : x.id = t.id
  · rw [if_pos hid]
    simp [hp (deactivated x) rfl]
  · rw [if_neg hid]
    intro hpx
    have hmem : x ∈ db.filter p := List.mem_filter.mpr ⟨hx, hpx⟩
    rw [h] at hmem
    have hxt : x = t := by simpa using hmem
    exact hid (by rw [hxt])

lemma forall2_weakened_refl (db : DB) : List.Forall₂ weakened db db := by
  induction db with
  | nil => exact List.Forall₂.nil
  | cons a l ih => exact List.Forall₂.cons (Or.inl rfl) ih

lemma forall2_weakened_deactivate (i : Nat) (db : DB) :
    List.Forall₂ weakened db (deactivate i db) := by
  induction db with
  | nil => exact List.Forall₂.nil
  | cons a l ih =>
    unfold deactivate
    rw [List.map_cons]
    refine List.Forall₂.cons ?_ ?_
    · by_cases hid : a.id = i
      · rw [if_pos hid]
        exact Or.inr rfl
      · rw [if_neg hid]
        exact Or.inl rfl
    · exact ih

/-- Claim C1. Authentication by a key held by exactly one active AUTH token
returns the owning user and deactivates the token; the same key then fails on
a second call; a key matched by no (or by more than one) active AUTH token
yields none with the store unchanged. -/
theorem authenticate_by_token_spec (key : String) (db : DB) (t : CallbackToken)
    (hk : key ≠ "") (h : db.filter (authMatch key) = [t]) :
    authenticate_by_token key db = (some t.userId, deactivate t.id db) ∧
    authenticate_by_token key (deactivate t.id db) =
      (none, deactivate t.id db) ∧
    ∀ db2 : DB, (db2.filter (authMatch key)).length ≠ 1 →
      authenticate_by_token key db2 = (none, db2) := by
  have hg : getUnique (authMatch key) db = some t := getUnique_eq_some _ _ _ h
  refine ⟨?_, ?_, ?_⟩
  · simp [authenticate_by_token, hk, hg]
  · have hnil : (deactivate t.id db).filter (authMatch key) = [] :=
      filter_deactivate_eq_nil _ (authMatch_inactive key) db t h
    have hg2 : getUnique (authMatch key) (deactivate t.id db) = none :=
      getUnique_eq_none _ _ (by rw [hnil]; simp)
    simp [authenticate_by_token, hk, hg2]
  · intro db2 hlen
    simp [authenticate_by_token, hk, getUnique_eq_none _ _ hlen]

/-- Witness for C1 at a concrete store: one active AUTH token with key 484732
owned by user 7. -/
theorem authenticate_by_token_spec_witness :
    authenticate_by_token "484732" [tokA] =
      (some tokA.userId, deactivate tokA.id [tokA]) ∧
    authenticate_by_token "484732" (deactivate tokA.id [tokA]) =
      (none, deactivate tokA.id [tokA]) :=
  have h := authenticate_by_token_spec "484732" [tokA] tokA (by decide) (by decide)
  ⟨h.1, h.2.1⟩

/-- Claim C2. For an active token that is not a demo token, under a present
positive expiry window, validation succeeds exactly when the age now minus
created_at is at most the window; past the window the validation returns false
and deactivates the token, after which every validation of that key returns
false whatever the clock or settings. -/
theorem validate_token_age_spec (key : String) (s : Settings) (now : Int)
    (db : DB) (t : CallbackToken) (exp : Int)
    (hk : key ≠ "") (h : db.filter (validateMatch key) = [t])
    (hdemo : isDemoAlias s t.to_alias = false)
    (hexp : s.PASSWORDLESS_TOKEN_EXPIRE_TIME = some exp) (hpos : 0 < exp) :
    ((validate_token_age key s now db).1 = true ↔ now - t.created_at ≤ exp) ∧
    (now - t.created_at ≤ exp → validate_token_age key s now db = (true, db)) ∧
    (exp < now - t.created_at →
      validate_token_age key s now db = (false, deactivate t.id db) ∧
      ∀ (s2 : Settings) (now2 : Int),
        validate_token_age key s2 now2 (deactivate t.id db) =
          (false, deactivate t.id db)) := by
  have hg : getUnique (validateMatch key) db = some t := getUnique_eq_some _ _ _ h
  have hnpos : ¬ exp ≤ 0 := not_le.mpr hpos
  refine ⟨?_, ?_, ?_⟩
  · by_cases hage : now - t.created_at ≤ exp
    · simp [validate_token_age, hk, hg, hdemo, hexp, hnpos, hage]
    · simp [validate_token_age, hk, hg, hdemo, hexp, hnpos, hage]
  · intro hage
    simp [validate_token_age, hk, hg, hdemo, hexp, hnpos, hage]
  · intro hage
    have hage2 : ¬ now - t.created_at ≤ exp := not_le.mpr hage
    refine ⟨by simp [validate_token_age, hk, hg, hdemo, hexp, hnpos, hage2], ?_⟩
    intro s2 now2
    have hnil : (deactivate t.id db).filter (validateMatch key) = [] :=
      filter_deactivate_eq_nil _ (validateMatch_inactive key) db t h
    have hg2 : getUnique (validateMatch key) (deactivate t.id db) = none :=
      getUnique_eq_none _ _ (by rw [hnil]; simp)
    simp [validate_token_age, hk, hg2]

/-- Witness for C2: a token created at time 0 with a 300 second window fails
at time 301 and is deactivated, and validates at time 300. -/
theorem validate_token_age_spec_witness :
    ((validate_token_age "484732" sBase 301 [tokA]).1 = true ↔
      (301 : Int) - tokA.created_at ≤ 300) ∧
    validate_token_age "484732" sBase 301 [tokA] =
      (false, deactivate tokA.id [tokA]) ∧
    validate_token_age "484732" sBase 300 [tokA] = (true, [tokA]) :=
  have h1 := validate_token_age_spec "484732" sBase 301 [tokA] tokA 300
    (by decide) (by decide) (by decide) rfl (by decide)
  have h2 := validate_token_age_spec "484732" sBase 300 [tokA] tokA 300
    (by decide) (by decide) (by decide) rfl (by decide)
  ⟨h1.1, (h1.2.2 (by decide)).1, h2.2.1 (by decide)⟩

/-- Claim C5. An active token whose stored alias is a demo registry key
validates true with the store unchanged, for every clock value and whatever
the expiry-window setting holds. -/
theorem validate_token_age_demo_spec (key : String) (s : Settings) (now : Int)
    (db : DB) (t : CallbackToken)
    (hk : key ≠ "") (h : db.filter (validateMatch key) = [t])
    (hdemo : isDemoAlias s t.to_alias = true) :
    validate_token_age key s now db = (true, db) := by
  have hg : getUnique (validateMatch key) db = some t := getUnique_eq_some _ _ _ h
  simp [validate_token_age, hk, hg, hdemo]

/-- Witness for C5: the demo token validates at a clock far past any window
and stays active. -/
theorem validate_token_age_demo_spec_witness :
    validate_token_age "111222" sDemo 99999999 [tokDemo] = (true, [tokDemo]) :=
  validate_token_age_demo_spec "111222" sDemo 99999999 [tokDemo] tokDemo
    (by decide) (by decide) (by decide)

lemma create_demo_reuse (u : PUser) (alias_type token_type : String)
    (s : Settings) (db : DB) (now : Int) (keyR vnR : Nat) (fld : String)
    (t : CallbackToken)
    (hat : alias_type ≠ "") (htt : token_type ≠ "")
    (hcall : asciiLower alias_type ≠ "call")
    (hvalid : VALID_ALIAS_TYPES.contains (asciiUpper alias_type) = true)
    (hfld : fieldNameSetting s (asciiUpper alias_type) = some fld)
    (halias : strOfPyOpt (userAttr u fld) ≠ "")
    (hdemo : isDemoAlias s (strOfPyOpt (userAttr u fld)) = true)
    (hfind : db.find? (demoReuseMatch u.id (asciiLower alias_type)) = some t) :
    create_callback_token_for_user (some u) alias_type token_type s db now
      keyR vnR = (.ok (some t), db) := by
  have hmem : asciiUpper alias_type ∈ VALID_ALIAS_TYPES := by simpa using hvalid
  simp [create_callback_token_for_user, createTokenBody, hat, htt, hcall,
    hmem, hfld, halias, hdemo, hfind]

lemma create_demo_fresh (u : PUser) (alias_type token_type : String)
    (s : Settings) (db : DB) (now : Int) (keyR vnR : Nat) (fld dk : String)
    (hat : alias_type ≠ "") (htt : token_type ≠ "")
    (hcall : asciiLower alias_type ≠ "call")
    (hvalid : VALID_ALIAS_TYPES.contains (asciiUpper alias_type) = true)
    (hfld : fieldNameSetting s (asciiUpper alias_type) = some fld)
    (halias : strOfPyOpt (userAttr u fld) ≠ "")
    (hlk : s.PASSWORDLESS_DEMO_USERS.lookup (strOfPyOpt (userAttr u fld)) =
      some dk)
    (hdk : dk ≠ "")
    (hfind : db.find? (demoReuseMatch u.id (asciiLower alias_type)) = none) :
    create_callback_token_for_user (some u) alias_type token_type s db now
      keyR vnR =
      (.ok (some (mkToken (freshId db) u.id dk (strOfPyOpt (userAttr u fld))
          (asciiLower alias_type) token_type now)),
        db ++ [mkToken (freshId db) u.id dk (strOfPyOpt (userAttr u fld))
          (asciiLower alias_type) token_type now]) := by
  have hdemo : isDemoAlias s (strOfPyOpt (userAttr u fld)) = true := by
    simp [isDemoAlias, hlk]
  have hmem : asciiUpper alias_type ∈ VALID_ALIAS_TYPES := by simpa using hvalid
  simp [create_callback_token_for_user, createTokenBody, hat, htt, hcall,
    hmem, hfld, halias, hdemo, hlk, hdk, hfind]

/-- Claim C3. When the resolved alias of the user is a demo registry key, the
creation call reuses the first active token of the same user and alias
category unchanged, persisting nothing new; when no such token exists, it
creates and returns a token whose key is the fixed registry key for that
alias. -/
theorem create_callback_token_demo_spec (u : PUser)
    (alias_type token_type : String) (s : Settings) (db : DB) (now : Int)
    (keyR vnR : Nat) (fld dk : String)
    (hat : alias_type ≠ "") (htt : token_type ≠ "")
    (hcall : asciiLower alias_type ≠ "call")
    (hvalid : VALID_ALIAS_TYPES.contains (asciiUpper alias_type) = true)
    (hfld : fieldNameSetting s (asciiUpper alias_type) = some fld)
    (halias : strOfPyOpt (userAttr u fld) ≠ "")
    (hlk : s.PASSWORDLESS_DEMO_USERS.lookup (strOfPyOpt (userAttr u fld)) =
      some dk)
    (hdk : dk ≠ "") :
    (∀ t : CallbackToken,
      db.find? (demoReuseMatch u.id (asciiLower alias_type)) = some t →
      create_callback_token_for_user (some u) alias_type token_type s db now
        keyR vnR = (.ok (some t), db)) ∧
    (db.find? (demoReuseMatch u.id (asciiLower alias_type)) = none →
      create_callback_token_for_user (some u) alias_type token_type s db now
        keyR vnR =
        (.ok (some (mkToken (freshId db) u.id dk (strOfPyOpt (userAttr u fld))
            (asciiLower alias_type) token_type now)),
          db ++ [mkToken (freshId db) u.id dk (strOfPyOpt (userAttr u fld))
            (asciiLower alias_type) token_type now])) := by
  constructor
  · intro t hfind
    exact create_demo_reuse u alias_type token_type s db now keyR vnR fld t
      hat htt hcall hvalid hfld halias (by simp [isDemoAlias, hlk]) hfind
  · intro hfind
    exact create_demo_fresh u alias_type token_type s db now keyR vnR fld dk
      hat htt hcall hvalid hfld halias hlk hdk hfind

/-- Witness for C3: for the demo user, an empty store yields the registry key
111222, and a second call on the resulting store returns the same row
unchanged. -/
theorem create_callback_token_demo_spec_witness :
    create_callback_token_for_user (some uDemo) "email" "AUTH" sDemo [] 5 0 0 =
      (.ok (some tokDemo), [tokDemo]) ∧
    create_callback_token_for_user (some uDemo) "email" "AUTH" sDemo
      [tokDemo] 9 0 0 = (.ok (some tokDemo), [tokDemo]) :=
  have h1 := create_callback_token_demo_spec uDemo "email" "AUTH" sDemo [] 5
    0 0 "email" "111222" (by decide) (by decide) (by decide) (by decide)
    (by decide) (by decide) (by decide) (by decide)
  have h2 := create_callback_token_demo_spec uDemo "email" "AUTH" sDemo
    [tokDemo] 9 0 0 "email" "111222" (by decide) (by decide) (by decide)
    (by decide) (by decide) (by decide) (by decide) (by decide)
  ⟨h1.2 (by decide), h2.1 tokDemo (by decide)⟩

/-- Claim C10. The demo reuse lookup filters only on user, active flag and
alias category, not on the requested token type, so a request for one type
can return an existing active token of another type. -/
theorem create_demo_reuse_cross_type_spec (u : PUser)
    (alias_type token_type : String) (s : Settings) (db : DB) (now : Int)
    (keyR vnR : Nat) (fld : String) (t : CallbackToken)
    (hat : alias_type ≠ "") (htt : token_type ≠ "")
    (hcall : asciiLower alias_type ≠ "call")
    (hvalid : VALID_ALIAS_TYPES.contains (asciiUpper alias_type) = true)
    (hfld : fieldNameSetting s (asciiUpper alias_type) = some fld)
    (halias : strOfPyOpt (userAttr u fld) ≠ "")
    (hdemo : isDemoAlias s (strOfPyOpt (userAttr u fld)) = true)
    (hfind : db.find? (demoReuseMatch u.id (asciiLower alias_type)) = some t)
    (hty : t.type ≠ token_type) :
    create_callback_token_for_user (some u) alias_type token_type s db now
      keyR vnR = (.ok (some t), db) ∧ t.type ≠ token_type :=
  ⟨create_demo_reuse u alias_type token_type s db now keyR vnR fld t
    hat htt hcall hvalid hfld halias hdemo hfind, hty⟩

/-- Witness for C10: a VERIFY request for the demo user returns the stored
active AUTH token. -/
theorem create_demo_reuse_cross_type_spec_witness :
    create_callback_token_for_user (some uDemo) "email" "VERIFY" sDemo
      [tokDemo] 9 0 0 = (.ok (some tokDemo), [tokDemo]) ∧
    tokDemo.type ≠ "VERIFY" :=
  create_demo_reuse_cross_type_spec uDemo "email" "VERIFY" sDemo [tokDemo] 9
    0 0 "email" tokDemo (by decide) (by decide) (by decide) (by decide)
    (by decide) (by decide) (by decide) (by decide) (by decide)

lemma authenticate_db_cases (key : String) (db : DB) :
    (authenticate_by_token key db).2 = db ∨
    ∃ i : Nat, (authenticate_by_token key db).2 = deactivate i db := by
  unfold authenticate_by_token
  repeat' split
  all_goals first
    | exact Or.inl rfl
    | exact Or.inr ⟨_, rfl⟩

lemma validate_db_cases (key : String) (s : Settings) (now : Int) (db : DB) :
    (validate_token_age key s now db).2 = db ∨
    ∃ i : Nat, (validate_token_age key s now db).2 = deactivate i db := by
  unfold validate_token_age
  repeat' split
  all_goals first
    | exact Or.inl rfl
    | exact Or.inr ⟨_, rfl⟩

lemma createTokenBody_extends (u : PUser)
    (toAliasField toAliasType key tokenType : String) (s : Settings) (db : DB)
    (now : Int) :
    ∃ ext : DB,
      (createTokenBody u toAliasField toAliasType key tokenType s db now).2 =
        db ++ ext := by
  unfold createTokenBody
  by_cases h1 : strOfPyOpt (userAttr u toAliasField) = ""
  · exact ⟨[], by simp [h1]⟩
  · by_cases h2 : isDemoAlias s (strOfPyOpt (userAttr u toAliasField)) = true
    · cases hf : db.find? (demoReuseMatch u.id toAliasType) with
      | some t => exact ⟨[], by simp [h1, h2, hf]⟩
      | none =>
        cases hl : s.PASSWORDLESS_DEMO_USERS.lookup
            (strOfPyOpt (userAttr u toAliasField)) with
        | none => exact ⟨[], by simp [h1, h2, hf, hl]⟩
        | some k =>
          by_cases hk : k = ""
          · exact ⟨[], by simp [h1, h2, hf, hl, hk]⟩
          · exact ⟨[mkToken (freshId db) u.id k
              (strOfPyOpt (userAttr u toAliasField)) toAliasType tokenType
              now], by simp [h1, h2, hf, hl, hk]⟩
    · exact ⟨[mkToken (freshId db) u.id key
        (strOfPyOpt (userAttr u toAliasField)) toAliasType tokenType now],
        by simp [h1, h2]⟩

lemma create_extends (user : Option PUser) (alias_type token_type : String)
    (s : Settings) (db : DB) (now : Int) (keyR vnR : Nat) :
    ∃ ext : DB,
      (create_callback_token_for_user user alias_type token_type s db now
        keyR vnR).2 = db ++ ext := by
  unfold create_callback_token_for_user
  cases user with
  | none => exact ⟨[], by simp⟩
  | some u =>
    by_cases h1 : alias_type = ""
    · exact ⟨[], by simp [h1]⟩
    · by_cases h2 : token_type = ""
      · exact ⟨[], by simp [h1, h2]⟩
      · by_cases h3 : asciiLower alias_type = "call"
        · cases hm : s.PASSWORDLESS_USER_MOBILE_FIELD_NAME with
          | none => exact ⟨[], by simp [h1, h2, h3, hm]⟩
          | some fld =>
            cases hv : select_virtual_number s db vnR with
            | none => exact ⟨[], by simp [h1, h2, h3, hm, hv]⟩
            | some key =>
              obtain ⟨ext, he⟩ := createTokenBody_extends u fld "mobile" key
                token_type s db now
              exact ⟨ext, by simpa [h1, h2, h3, hm, hv] using he⟩
        · by_cases h4 : VALID_ALIAS_TYPES.contains (asciiUpper alias_type) =
            true
          · have hm4 : asciiUpper alias_type ∈ VALID_ALIAS_TYPES := by
              simpa using h4
            cases hfn : fieldNameSetting s (asciiUpper alias_type) with
            | none => exact ⟨[], by simp [h1, h2, h3, hm4, hfn]⟩
            | some fld =>
              obtain ⟨ext, he⟩ := createTokenBody_extends u fld
                (asciiLower alias_type) (generate_numeric_token keyR)
                token_type s db now
              exact ⟨ext, by simpa [h1, h2, h3, hm4, hfn] using he⟩
          · have hm4 : ¬ asciiUpper alias_type ∈ VALID_ALIAS_TYPES := by
              simpa using h4
            exact ⟨[], by simp [h1, h2, h3, hm4]⟩

/-- Claim C4. No operation reactivates or deletes a token row.  The
authentication and age-validation operations leave every stored row either
unchanged or with is_active cleared, and token creation only appends rows,
leaving all prior rows untouched. -/
theorem token_lifecycle_spec (key : String) (db : DB) (s : Settings)
    (now : Int) (user : Option PUser) (alias_type token_type : String)
    (keyR vnR : Nat) :
    List.Forall₂ weakened db (authenticate_by_token key db).2 ∧
    List.Forall₂ weakened db (validate_token_age key s now db).2 ∧
    ∃ ext : DB,
      (create_callback_token_for_user user alias_type token_type s db now
        keyR vnR).2 = db ++ ext := by
  refine ⟨?_, ?_, create_extends user alias_type token_type s db now keyR vnR⟩
  · rcases authenticate_db_cases key db with h | ⟨i, h⟩
    · rw [h]
      exact forall2_weakened_refl db
    · rw [h]
      exact forall2_weakened_deactivate i db
  · rcases validate_db_cases key s now db with h | ⟨i, h⟩
    · rw [h]
      exact forall2_weakened_refl db
    · rw [h]
      exact forall2_weakened_deactivate i db

/-- Claim C7. Virtual-number selection picks the pool element indexed by the
random draw, never consults the token store (the filtering by in-use numbers
follows an unconditional return and is dead), fails exactly on an empty pool,
returns only pool members, and can return every pool member for a suitable
draw. -/
theorem select_virtual_number_spec (s : Settings) (db db2 : DB) (r : Nat) :
    select_virtual_number s db r = select_virtual_number s db2 r ∧
    select_virtual_number s db r =
      random_choice s.PASSWORDLESS_VIRTUAL_NUMBER_POOL r ∧
    (s.PASSWORDLESS_VIRTUAL_NUMBER_POOL = [] →
      select_virtual_number s db r = none) ∧
    (s.PASSWORDLESS_VIRTUAL_NUMBER_POOL ≠ [] →
      ∃ n, select_virtual_number s db r = some n) ∧
    (∀ n : String, select_virtual_number s db r = some n →
      n ∈ s.PASSWORDLESS_VIRTUAL_NUMBER_POOL) ∧
    (∀ n ∈ s.PASSWORDLESS_VIRTUAL_NUMBER_POOL,
      ∃ r2 : Nat, select_virtual_number s db r2 = some n) := by
  have hsel : ∀ (d : DB) (r3 : Nat), select_virtual_number s d r3 =
      random_choice s.PASSWORDLESS_VIRTUAL_NUMBER_POOL r3 := by
    intro d r3
    by_cases hP : s.PASSWORDLESS_VIRTUAL_NUMBER_POOL.isEmpty = true
    · have hnil : s.PASSWORDLESS_VIRTUAL_NUMBER_POOL = [] :=
        List.isEmpty_iff.mp hP
      simp [select_virtual_number, hP, hnil, random_choice]
    · simp [select_virtual_number, hP]
  refine ⟨by rw [hsel, hsel], hsel db r, ?_, ?_, ?_, ?_⟩
  · intro hP
    rw [hsel, hP]
    rfl
  · intro hP
    rw [hsel]
    unfold random_choice
    have hlen : 0 < s.PASSWORDLESS_VIRTUAL_NUMBER_POOL.length :=
      List.length_pos.mpr hP
    rcases List.get?_eq_get (Nat.mod_lt r hlen) with hg
    exact ⟨_, hg⟩
  · intro n hn
    rw [hsel] at hn
    unfold random_choice at hn
    exact List.get?_mem hn
  · intro n hn
    rw [List.mem_iff_get?] at hn
    obtain ⟨i, hi⟩ := hn
    have hlt : i < s.PASSWORDLESS_VIRTUAL_NUMBER_POOL.length :=
      (List.get?_eq_some.mp hi).1
    refine ⟨i, ?_⟩
    rw [hsel]
    unfold random_choice
    rw [Nat.mod_eq_of_lt hlt]
    exact hi

/-- Witness for C7 at the concrete two-number pool: the draw 3 picks the
second number whatever the token store holds. -/
theorem select_virtual_number_spec_witness :
    select_virtual_number sBase [] 3 = select_virtual_number sBase [tokA] 3 ∧
    select_virtual_number sBase [] 3 =
      random_choice sBase.PASSWORDLESS_VIRTUAL_NUMBER_POOL 3 :=
  have h := select_virtual_number_spec sBase [] [tokA] 3
  ⟨h.1, h.2.1⟩

/-- Claim C6. Alias verification of a present user and token succeeds exactly
when the token's alias type is recognized, both the field and the
verified-field configuration for that type exist, the user's current alias
value (as the source computes it, via str over the attribute read) is
non-empty, and the token's stored alias equals that current value; on success
the category's verified flag is set on the persisted user, and on failure the
user is unchanged. -/
theorem verify_user_alias_spec (u : PUser) (t : CallbackToken) (s : Settings) :
    ((verify_user_alias (some u) (some t) s).1 = true ↔
      VALID_ALIAS_TYPES.contains (asciiUpper t.to_alias_type) = true ∧
      ∃ fld vfld : String,
        fieldNameSetting s (asciiUpper t.to_alias_type) = some fld ∧
        verifiedFieldNameSetting s (asciiUpper t.to_alias_type) = some vfld ∧
        strOfPyOpt (userAttr u fld) ≠ "" ∧
        t.to_alias = strOfPyOpt (userAttr u fld)) ∧
    (∀ vfld : String, (verify_user_alias (some u) (some t) s).1 = true →
      verifiedFieldNameSetting s (asciiUpper t.to_alias_type) = some vfld →
      (verify_user_alias (some u) (some t) s).2 =
        some (setVerifiedAttr u vfld)) ∧
    ((verify_user_alias (some u) (some t) s).1 = false →
      (verify_user_alias (some u) (some t) s).2 = some u) := by
  by_cases hc : VALID_ALIAS_TYPES.contains (asciiUpper t.to_alias_type) = true
  · have hcm : asciiUpper t.to_alias_type ∈ VALID_ALIAS_TYPES := by
      simpa using hc
    cases hF : fieldNameSetting s (asciiUpper t.to_alias_type) with
    | none => simp [verify_user_alias, hc, hcm, hF]
    | some fld =>
      cases hV : verifiedFieldNameSetting s (asciiUpper t.to_alias_type) with
      | none => simp [verify_user_alias, hc, hcm, hF, hV]
      | some vfld =>
        by_cases ha : strOfPyOpt (userAttr u fld) = ""
        · simp [verify_user_alias, hc, hcm, hF, hV, ha]
        · by_cases he : t.to_alias = strOfPyOpt (userAttr u fld)
          · simp [verify_user_alias, hc, hcm, hF, hV, ha, he]
          · simp [verify_user_alias, hc, hcm, hF, hV, ha, he]
  · have hcm : ¬ asciiUpper t.to_alias_type ∈ VALID_ALIAS_TYPES := by
      simpa using hc
    simp [verify_user_alias, hc, hcm]

/-- Witness for C6: the demo user verifies the email token issued against the
matching address and comes out with the email verified flag set. -/
theorem verify_user_alias_spec_witness :
    verify_user_alias (some uDemo) (some tokDemo) sDemo =
      (true, some (setVerifiedAttr uDemo "email_verified")) := by
  have h := verify_user_alias_spec uDemo tokDemo sDemo
  have h1 : (verify_user_alias (some uDemo) (some tokDemo) sDemo).1 = true :=
    h.1.mpr ⟨by decide, "email", "email_verified", by decide, by decide,
      by decide, by decide⟩
  have h2 := h.2.1 "email_verified" h1 (by decide)
  exact Prod.ext h1 h2

/-- Claim C8. With test suppression on, SMS dispatch for a present user
returns true exactly when the outbound noreply number is configured and
non-empty, returns false when it is absent or empty, and never consults the
transport (the result is the same for every transport outcome). -/
theorem send_sms_suppressed_spec (u : PUser) (tok : Option CallbackToken)
    (s : Settings) (tw tr : Bool)
    (hs : s.PASSWORDLESS_TEST_SUPPRESSION = true) :
    (send_sms_with_callback_token (some u) tok s tw tr = .ok true ↔
      ∃ n : String, s.PASSWORDLESS_MOBILE_NOREPLY_NUMBER = some n ∧ n ≠ "") ∧
    ((s.PASSWORDLESS_MOBILE_NOREPLY_NUMBER = none ∨
        s.PASSWORDLESS_MOBILE_NOREPLY_NUMBER = some "") →
      send_sms_with_callback_token (some u) tok s tw tr = .ok false) ∧
    (∀ tw2 tr2 : Bool, send_sms_with_callback_token (some u) tok s tw2 tr2 =
      send_sms_with_callback_token (some u) tok s tw tr) := by
  cases hm : s.PASSWORDLESS_MOBILE_NOREPLY_NUMBER with
  | none => simp [send_sms_with_callback_token, hs, hm]
  | some n =>
    by_cases hn : n = ""
    · simp [send_sms_with_callback_token, hs, hm, hn]
    · simp [send_sms_with_callback_token, hs, hm, hn]

/-- Witness for C8 at the concrete settings: suppression on and a configured
number give success; clearing the number gives failure. -/
theorem send_sms_suppressed_spec_witness :
    send_sms_with_callback_token (some uDemo) none sDemo true true =
      .ok true :=
  (send_sms_suppressed_spec uDemo none sDemo true true (by decide)).1.mpr
    ⟨"+19999", rfl, by decide⟩

/-- Counterexample for C9 as stated: with suppression enabled and the user
missing, the suppressed branch's log line reads user.id and raises
AttributeError instead of returning true. -/
theorem send_call_suppressed_missing_user_cex :
    send_call_with_callback_token none none sDemo true true =
      .error "AttributeError" ∧
    ¬ send_call_with_callback_token none none sDemo true true = .ok true :=
  ⟨by decide, by decide⟩

/-- Claim C9, amended. With test suppression on, call dispatch for a present
user returns true for every token argument (including a missing one), every
configuration state and every transport outcome; only a missing user escapes
via the logging read of user.id. -/
theorem send_call_suppressed_spec (u : PUser) (tok : Option CallbackToken)
    (s : Settings) (tw tr : Bool)
    (hs : s.PASSWORDLESS_TEST_SUPPRESSION = true) :
    send_call_with_callback_token (some u) tok s tw tr = .ok true := by
  simp [send_call_with_callback_token, hs]

/-- Witness for amended C9: a present user with no token and suppression on
yields success. -/
theorem send_call_suppressed_spec_witness :
    send_call_with_callback_token (some uDemo) none sDemo true true =
      .ok true :=
  send_call_suppressed_spec uDemo none sDemo true true (by decide)

end DrfPasswordless
